import Mathlib

/-!
Verification of the estimation and flagging core of the Clove Dish Analyzer
(src/clove_dish_analyzer.py).

The core consists of the row-level `estimate` function (lines 212-228), which
folds the three fixed ingredient slots of a dish row into total emissions and
total cost, and the derived-metrics / flagging pipeline (lines 230-238), which
computes margin, profit, CO2e-per-profit and the two flags from the estimator
output.

Modelling choices:
* Numeric cell values are rationals (ℚ).  A missing cell (pandas NaN / absent
  column) is `none` of an `Option`; `pd.notna` corresponds to matching `some`.
* Python's `round(x, 2)` and pandas `.round(2)` are modelled by `round2` over
  exact rationals (scale by 100, round to the nearest integer, unscale).
  Python rounds binary floats half-to-even; over exact rationals the two
  agree except at exact half-way points, which no claim exercises.
* The derived-metrics columns are pandas Series arithmetic, which follows
  IEEE-754 / numpy semantics on division by zero (signed infinity for a
  nonzero dividend, NaN for 0/0) instead of raising.  The type `FVal` captures
  a finite rational together with these three non-finite outcomes, and `fdiv`
  models the division.
-/

namespace Clove

/-- Python `round(x, 2)` / pandas `.round(2)` over exact rationals: scale by
100, round to the nearest integer, unscale. -/
def round2 (q : ℚ) : ℚ := (round (q * 100) : ℚ) / 100

/-- Value of a pandas float computation: a finite rational, or one of the
IEEE-754 non-finite values that numpy division by zero produces. -/
inductive FVal where
  | fin : ℚ → FVal
  | posInf : FVal
  | negInf : FVal
  | nan : FVal
deriving DecidableEq, Repr

/-- numpy / IEEE-754 division as used in the pandas column arithmetic:
a finite quotient when the divisor is nonzero, otherwise a signed infinity
for a nonzero dividend and NaN for `0 / 0`. -/
def fdiv (a b : ℚ) : FVal :=
  if b ≠ 0 then .fin (a / b)
  else if 0 < a then .posInf
  else if a < 0 then .negInf
  else .nan

/-- Multiplication by the positive constant 100 (`* 100` in the margin
column): infinities keep their sign, NaN stays NaN. -/
def FVal.mul100 : FVal → FVal
  | .fin q => .fin (q * 100)
  | v => v

/-- pandas `.round(2)` on a float column: rounds finite entries, leaves
infinities and NaN unchanged. -/
def FVal.round2F : FVal → FVal
  | .fin q => .fin (round2 q)
  | v => v

/-- The pandas comparison `column < c` entry-wise: NaN compares false,
negative infinity is less than every finite constant, positive infinity
is not. -/
def FVal.lt (v : FVal) (c : ℚ) : Bool :=
  match v with
  | .fin q => decide (q < c)
  | .negInf => true
  | .posInf => false
  | .nan => false

/-- Whether a pandas float value is finite (not ±inf, not NaN). -/
def FVal.isFinite : FVal → Bool
  | .fin _ => true
  | _ => false

/-- Python `str.strip()`: remove whitespace from both ends of the string
(drop leading whitespace from the character list, then trailing whitespace
via reverse / drop / reverse).  `Char.isWhitespace` covers the whitespace
characters relevant to spreadsheet cell values. -/
def strip (s : String) : String :=
  ⟨((s.data.dropWhile Char.isWhitespace).reverse.dropWhile Char.isWhitespace).reverse⟩

/-- One ingredient slot of a dish row: the columns `Ingredient i`,
`Qty i (g)` and `Cost per g i (€)` for one i in 1..3.  A missing cell is
`none`. -/
structure Slot where
  ing : Option String
  qty : Option ℚ
  costPerG : Option ℚ
deriving DecidableEq, Repr

/-- One row of the dish spreadsheet: `Dish Name`, `Selling Price (€)` (the
core assumes it present and numeric) and the three fixed ingredient slots. -/
structure DishRecord where
  name : String
  sellingPrice : ℚ
  slot1 : Slot
  slot2 : Slot
  slot3 : Slot
deriving DecidableEq, Repr

/-- The three slots of a row in loop order (the source iterates
`for i in range(1, 4)`). -/
def DishRecord.slots (r : DishRecord) : List Slot := [r.slot1, r.slot2, r.slot3]

/-- The static carbon reference table of `load_carbon_data`
(src/clove_dish_analyzer.py lines 86-95), in kg CO2e per kg. -/
def load_carbon_data : String → Option ℚ := fun s =>
  [("Pasta", (1.1 : ℚ)), ("Beef Mince", 27.0), ("Tomato Sauce", 2.5),
   ("Chicken Breast", 6.9), ("Lettuce", 0.8), ("Cucumber", 0.4),
   ("Chickpeas", 0.9), ("Tomato", 1.4), ("Coconut Milk", 2.9),
   ("White Fish", 5.5), ("Bun", 1.2), ("Tortilla", 1.0), ("Cheese", 13.5),
   ("Arborio Rice", 1.8), ("Mushrooms", 1.2), ("Parmesan", 10.0),
   ("Yogurt", 2.1), ("Quinoa", 1.5), ("Avocado", 2.2), ("Couscous", 1.7),
   ("Tofu", 1.9), ("Broccoli", 0.6), ("Soy Sauce", 3.2)].lookup s

/-- One iteration of the loop body of `estimate` (lines 215-227): if both the
ingredient name and the quantity are present, add the emission contribution
`(qty / 1000) * factor` (factor 0 when the trimmed name is not in the carbon
reference), resolve the per-gram cost (explicit value if present, else the
price-reference entry for the trimmed name) and, when resolved, add
`qty * cost_per_g` to the cost accumulator; otherwise leave the accumulators
unchanged. -/
def estimateStep (cr pr : String → Option ℚ) (acc : ℚ × ℚ) (s : Slot) : ℚ × ℚ :=
  match s.ing, s.qty with
  | some ing, some qty =>
      let co2 := (cr (strip ing)).getD 0
      let em := acc.1 + qty / 1000 * co2
      let costPerG : Option ℚ :=
        match s.costPerG with
        | some c => some c
        | none => pr (strip ing)
      match costPerG with
      | some c => (em, acc.2 + qty * c)
      | none => (em, acc.2)
  | _, _ => acc

/-- The row-level estimator `estimate` (lines 212-228): fold the three slots
in order starting from zero accumulators, then round both accumulators to
2 decimal places. -/
def estimate (cr pr : String → Option ℚ) (r : DishRecord) : ℚ × ℚ :=
  let t := r.slots.foldl (estimateStep cr pr) (0, 0)
  (round2 t.1, round2 t.2)

/-- Emission contribution of one slot: `(qty / 1000) * factor` for an active
slot (both name and quantity present), with factor the carbon-reference value
of the trimmed name and 0 when absent; 0 for a skipped slot. -/
def slotEmission (cr : String → Option ℚ) (s : Slot) : ℚ :=
  match s.ing, s.qty with
  | some ing, some qty => qty / 1000 * ((cr (strip ing)).getD 0)
  | _, _ => 0

/-- The price resolver (spec §4.1, lines 218 and 224-225 of the source): the
explicit per-row cost wins when present; otherwise the price-reference entry
of the trimmed ingredient name; otherwise no cost is known. -/
def resolve_cost_per_gram (ing : String) (explicitCost : Option ℚ)
    (pr : String → Option ℚ) : Option ℚ :=
  match explicitCost with
  | some c => some c
  | none => pr (strip ing)

/-- Cost contribution of one slot: `qty * cost_per_g` for an active slot with
a resolved cost, 0 for an active slot with no resolvable cost, 0 for a
skipped slot. -/
def slotCost (pr : String → Option ℚ) (s : Slot) : ℚ :=
  match s.ing, s.qty with
  | some ing, some qty =>
      match resolve_cost_per_gram ing s.costPerG pr with
      | some c => qty * c
      | none => 0
  | _, _ => 0

/-- Output row of the pipeline: the five derived columns and the two flags
(the source renders the flags into one string column; the core semantics is
the pair of booleans). -/
structure DishResult where
  co2e : ℚ
  totalCost : ℚ
  marginPct : FVal
  profit : ℚ
  co2ePerProfit : FVal
  lowMargin : Bool
  highCO2 : Bool
deriving DecidableEq, Repr

/-- The derived-metrics and flagging pipeline (lines 230-238) applied to one
row: `Estimated CO₂e (kg)` and `Total Cost (€)` from `estimate`, then
`Margin (%) = ((price - cost) / price * 100).round(2)`,
`Profit (€) = (price - cost).round(2)`,
`CO₂e per € profit = (co2e / profit).round(2)`,
flag low margin when `Margin (%) < 60` and high CO2 when the rounded
emissions exceed 3. -/
def analyze (cr pr : String → Option ℚ) (r : DishRecord) : DishResult :=
  { co2e := (estimate cr pr r).1
    totalCost := (estimate cr pr r).2
    marginPct := ((fdiv (r.sellingPrice - (estimate cr pr r).2) r.sellingPrice).mul100).round2F
    profit := round2 (r.sellingPrice - (estimate cr pr r).2)
    co2ePerProfit :=
      (fdiv (estimate cr pr r).1 (round2 (r.sellingPrice - (estimate cr pr r).2))).round2F
    lowMargin :=
      (((fdiv (r.sellingPrice - (estimate cr pr r).2) r.sellingPrice).mul100).round2F).lt 60
    highCO2 := decide ((estimate cr pr r).1 > 3) }

/-- Replacing the quantity of the i-th slot of a row (used to state
monotonicity of the estimator in a single slot quantity). -/
def DishRecord.setQty (r : DishRecord) (i : Fin 3) (q : ℚ) : DishRecord :=
  match i with
  | ⟨0, _⟩ => { r with slot1 := { r.slot1 with qty := some q } }
  | ⟨1, _⟩ => { r with slot2 := { r.slot2 with qty := some q } }
  | ⟨2, _⟩ => { r with slot3 := { r.slot3 with qty := some q } }

/-- A slot with every cell missing. -/
def emptySlot : Slot := { ing := none, qty := none, costPerG := none }

/-- The empty price reference (no price file uploaded). -/
def emptyPr : String → Option ℚ := fun _ => none

/-- Price reference of spec example 1: Pasta at 0.01 per gram. -/
def pastaPr : String → Option ℚ := fun s => if s = "Pasta" then some 0.01 else none

/-- Spec example 1: dish "Pasta Bowl", selling price 10.00, one active slot
with ingredient "Pasta", 200 g, no explicit cost. -/
def pastaBowl : DishRecord :=
  { name := "Pasta Bowl", sellingPrice := 10,
    slot1 := { ing := some "Pasta", qty := some 200, costPerG := none },
    slot2 := emptySlot, slot3 := emptySlot }

/-- Spec example 2: dish "Beef Burger", selling price 8.00, one active slot
with ingredient "Beef Mince", 150 g, no explicit cost, and no price
reference entry. -/
def beefBurger : DishRecord :=
  { name := "Beef Burger", sellingPrice := 8,
    slot1 := { ing := some "Beef Mince", qty := some 150, costPerG := none },
    slot2 := emptySlot, slot3 := emptySlot }

/-- Demonstration dish carrying both flags: cost 6 of 10 (margin 40 < 60)
and 0.2 kg of an ingredient at 27 kg CO2e per kg (5.4 > 3). -/
def dishBothFlags : DishRecord :=
  { name := "Both", sellingPrice := 10,
    slot1 := { ing := some "Beef Mince", qty := some 200, costPerG := some 0.03 },
    slot2 := emptySlot, slot3 := emptySlot }

/-- Demonstration dish carrying only the low-margin flag: margin 40,
emissions 0.22. -/
def dishLowOnly : DishRecord :=
  { name := "LowOnly", sellingPrice := 10,
    slot1 := { ing := some "Pasta", qty := some 200, costPerG := some 0.03 },
    slot2 := emptySlot, slot3 := emptySlot }

/-- Demonstration dish carrying only the high-CO2 flag: margin 90,
emissions 5.4. -/
def dishHighOnly : DishRecord :=
  { name := "HighOnly", sellingPrice := 10,
    slot1 := { ing := some "Beef Mince", qty := some 200, costPerG := some 0.005 },
    slot2 := emptySlot, slot3 := emptySlot }

/-- Demonstration dish carrying neither flag: margin 90, emissions 0.22. -/
def dishNoFlags : DishRecord :=
  { name := "NoFlags", sellingPrice := 10,
    slot1 := { ing := some "Pasta", qty := some 200, costPerG := some 0.005 },
    slot2 := emptySlot, slot3 := emptySlot }

/-- Demonstration dish whose margin is exactly 60 percent: cost 4 of 10. -/
def dishMarginSixty : DishRecord :=
  { name := "MarginSixty", sellingPrice := 10,
    slot1 := { ing := some "Pasta", qty := some 200, costPerG := some 0.02 },
    slot2 := emptySlot, slot3 := emptySlot }

/-- Demonstration dish whose emissions are exactly 3 kg: 1.2 kg of an
ingredient at 2.5 kg CO2e per kg. -/
def dishCO2Three : DishRecord :=
  { name := "CO2Three", sellingPrice := 10,
    slot1 := { ing := some "Tomato Sauce", qty := some 1200, costPerG := none },
    slot2 := emptySlot, slot3 := emptySlot }

/-- Demonstration dish with selling price 0 and positive cost. -/
def zeroPriceDish : DishRecord :=
  { name := "ZeroPrice", sellingPrice := 0,
    slot1 := { ing := some "Pasta", qty := some 200, costPerG := some 0.01 },
    slot2 := emptySlot, slot3 := emptySlot }

/-- Demonstration dish with selling price 0 and zero cost. -/
def zeroPriceFreeDish : DishRecord :=
  { name := "ZeroPriceFree", sellingPrice := 0,
    slot1 := { ing := some "Pasta", qty := some 200, costPerG := none },
    slot2 := emptySlot, slot3 := emptySlot }

/-- Demonstration dish for the monotonicity witness: one slot of "Pasta"
with no explicit cost. -/
def monoDish : DishRecord :=
  { name := "Mono", sellingPrice := 10,
    slot1 := { ing := some "Pasta", qty := some 100, costPerG := none },
    slot2 := emptySlot, slot3 := emptySlot }

/-! Helper lemmas. -/

lemma strip_pasta : strip "Pasta" = "Pasta" := by decide

lemma strip_beef : strip "Beef Mince" = "Beef Mince" := by decide

lemma strip_tomato_sauce : strip "Tomato Sauce" = "Tomato Sauce" := by decide

lemma beq_beef_pasta : ("Beef Mince" == "Pasta") = false := by decide

lemma beq_sauce_pasta : ("Tomato Sauce" == "Pasta") = false := by decide

lemma beq_sauce_beef : ("Tomato Sauce" == "Beef Mince") = false := by decide

/-- One loop iteration adds exactly the slot's emission and cost
contributions to the two accumulators. -/
lemma estimateStep_eq (cr pr : String → Option ℚ) (acc : ℚ × ℚ) (s : Slot) :
    estimateStep cr pr acc s = (acc.1 + slotEmission cr s, acc.2 + slotCost pr s) := by
  unfold estimateStep slotEmission slotCost resolve_cost_per_gram
  rcases s with ⟨ing, qty, c⟩
  rcases ing with _ | ing <;> rcases qty with _ | qty <;> simp
  rcases c with _ | c
  · rcases h : pr (strip ing) with _ | p <;> simp [h]
  · simp

/-- The estimator is the rounded componentwise sum of the three slot
contributions. -/
lemma estimate_eq (cr pr : String → Option ℚ) (r : DishRecord) :
    estimate cr pr r =
      (round2 (slotEmission cr r.slot1 + slotEmission cr r.slot2 + slotEmission cr r.slot3),
       round2 (slotCost pr r.slot1 + slotCost pr r.slot2 + slotCost pr r.slot3)) := by
  unfold estimate DishRecord.slots
  simp [List.foldl, estimateStep_eq, add_assoc]

/-- Rounding to 2 decimals is monotone. -/
lemma round2_mono {x y : ℚ} (h : x ≤ y) : round2 x ≤ round2 y := by
  unfold round2
  have hr : round (x * 100) ≤ round (y * 100) := by
    rw [round_eq, round_eq]
    exact Int.floor_le_floor (by linarith)
  have hc : ((round (x * 100) : ℤ) : ℚ) ≤ ((round (y * 100) : ℤ) : ℚ) := by
    exact_mod_cast hr
  linarith

/-- Subtracting an already 2-decimal-rounded value commutes with rounding. -/
lemma round2_sub_round2 (x y : ℚ) : round2 (x - round2 y) = round2 x - round2 y := by
  unfold round2
  rw [sub_mul, div_mul_cancel₀ _ (by norm_num : (100 : ℚ) ≠ 0), round_sub_int]
  push_cast
  ring

/-- Rounding to 2 decimals moves a value by at most 1/200. -/
lemma abs_round2_sub (z : ℚ) : |round2 z - z| ≤ 1 / 200 := by
  unfold round2
  have h := abs_sub_round (z * 100)
  rw [abs_sub_comm] at h
  have e : (round (z * 100) : ℚ) / 100 - z = ((round (z * 100) : ℚ) - z * 100) / 100 := by
    ring
  rw [e, abs_div, abs_of_nonneg (by norm_num : (0 : ℚ) ≤ 100)]
  linarith

/-- The emission contribution of a slot is monotone in its quantity when the
emission factors are non-negative. -/
lemma slotEmission_qty_mono (cr : String → Option ℚ)
    (hcr : ∀ n v, cr n = some v → 0 ≤ v) (s : Slot) {q q' : ℚ} (h : q ≤ q') :
    slotEmission cr { s with qty := some q } ≤ slotEmission cr { s with qty := some q' } := by
  unfold slotEmission
  rcases s with ⟨ing, _, c⟩
  rcases ing with _ | ing
  · simp
  · simp only
    have h0 : 0 ≤ (cr (strip ing)).getD 0 := by
      rcases hc : cr (strip ing) with _ | v
      · simp
      · simpa using hcr _ v hc
    have h1 : q / 1000 ≤ q' / 1000 := by linarith
    exact mul_le_mul_of_nonneg_right h1 h0

/-- The cost contribution of a slot is monotone in its quantity when its
explicit cost and all reference prices are non-negative. -/
lemma slotCost_qty_mono (pr : String → Option ℚ)
    (hpr : ∀ n v, pr n = some v → 0 ≤ v) (s : Slot)
    (hexp : ∀ c, s.costPerG = some c → 0 ≤ c) {q q' : ℚ} (h : q ≤ q') :
    slotCost pr { s with qty := some q } ≤ slotCost pr { s with qty := some q' } := by
  unfold slotCost resolve_cost_per_gram
  rcases s with ⟨ing, _, c⟩
  rcases ing with _ | ing
  · simp
  · rcases c with _ | c
    · rcases hc : pr (strip ing) with _ | p
      · simp [hc]
      · simpa [hc] using mul_le_mul_of_nonneg_right h (hpr _ p hc)
    · simpa using mul_le_mul_of_nonneg_right h (hexp c rfl)

/-! Claim theorems. -/

/-- C1: the estimator iterates exactly the three fixed ingredient slots in
order; each slot whose ingredient name and quantity are both present adds
`(quantity_g / 1000) * emission_factor` to the emissions accumulator, where
the emission factor is the carbon-reference value of the trimmed name and 0
when the name is absent from the carbon reference; and the function returns
both the emissions and cost accumulators rounded to 2 decimal places. -/
theorem estimate_rounded_slot_sums (cr pr : String → Option ℚ) (r : DishRecord) :
    estimate cr pr r =
      (round2 (slotEmission cr r.slot1 + slotEmission cr r.slot2 + slotEmission cr r.slot3),
       round2 (slotCost pr r.slot1 + slotCost pr r.slot2 + slotCost pr r.slot3)) ∧
    (∀ s : Slot, ∀ ing qty, s.ing = some ing → s.qty = some qty →
      slotEmission cr s = qty / 1000 * ((cr (strip ing)).getD 0)) := by
  refine ⟨estimate_eq cr pr r, ?_⟩
  intro s ing qty hing hqty
  rcases s with ⟨i0, q0, c0⟩
  simp at hing hqty
  subst hing
  subst hqty
  rfl

/-- Witness for C1, applied at the Pasta slot of spec example 1. -/
theorem estimate_rounded_slot_sums_witness :
    slotEmission load_carbon_data pastaBowl.slot1 =
      200 / 1000 * ((load_carbon_data (strip "Pasta")).getD 0) :=
  (estimate_rounded_slot_sums load_carbon_data emptyPr pastaBowl).2
    pastaBowl.slot1 "Pasta" 200 rfl rfl

/-- C2: price resolution for an active slot: a present explicit cost is used
unchanged, whatever the price reference holds for the trimmed name;
otherwise a price-reference entry for the trimmed name is used; otherwise
the slot contributes zero to total cost. -/
theorem price_resolution_precedence (pr : String → Option ℚ) (s : Slot)
    (ing : String) (qty : ℚ) (hing : s.ing = some ing) (hqty : s.qty = some qty) :
    (∀ c, s.costPerG = some c → slotCost pr s = qty * c) ∧
    (s.costPerG = none → ∀ p, pr (strip ing) = some p → slotCost pr s = qty * p) ∧
    (s.costPerG = none → pr (strip ing) = none → slotCost pr s = 0) := by
  rcases s with ⟨i0, q0, c0⟩
  simp at hing hqty
  subst hing
  subst hqty
  refine ⟨?_, ?_, ?_⟩
  · intro c hc
    simp at hc
    subst hc
    rfl
  · intro hc p hp
    simp at hc
    subst hc
    simp [slotCost, resolve_cost_per_gram, hp]
  · intro hc hp
    simp at hc
    subst hc
    simp [slotCost, resolve_cost_per_gram, hp]

/-- Witness for C2: the explicit cost 0.02 wins although the price reference
lists 0.05 for the same trimmed ingredient name. -/
theorem price_resolution_precedence_witness :
    slotCost (fun s => if s = "Pasta" then some 0.05 else none)
      { ing := some "Pasta", qty := some 50, costPerG := some 0.02 } = 50 * 0.02 :=
  (price_resolution_precedence (fun s => if s = "Pasta" then some 0.05 else none)
    { ing := some "Pasta", qty := some 50, costPerG := some 0.02 }
    "Pasta" 50 rfl rfl).1 0.02 rfl

/-- C5: an active slot whose cost cannot be resolved (no explicit cost, no
price-reference entry for the trimmed name) contributes zero to the cost
accumulator but still its full emission contribution; spec example 2 (Beef
Burger) yields total cost 0, emissions 4.05, margin 100 and only the
high-CO2 flag. -/
theorem unresolved_cost_emission_only (cr pr : String → Option ℚ) (s : Slot)
    (ing : String) (qty : ℚ) (hing : s.ing = some ing) (hqty : s.qty = some qty)
    (hexp : s.costPerG = none) (href : pr (strip ing) = none) :
    slotCost pr s = 0 ∧
    slotEmission cr s = qty / 1000 * ((cr (strip ing)).getD 0) ∧
    analyze load_carbon_data emptyPr beefBurger =
      { co2e := 4.05, totalCost := 0, marginPct := FVal.fin 100, profit := 8,
        co2ePerProfit := FVal.fin 0.51, lowMargin := false, highCO2 := true } := by
  refine ⟨?_, ?_, ?_⟩
  · rcases s with ⟨i0, q0, c0⟩
    simp at hing hqty hexp
    subst hing
    subst hqty
    subst hexp
    simp [slotCost, resolve_cost_per_gram, href]
  · rcases s with ⟨i0, q0, c0⟩
    simp at hing hqty
    subst hing
    subst hqty
    rfl
  · norm_num +decide [analyze, estimate, DishRecord.slots, estimateStep, beefBurger,
      emptySlot, emptyPr, load_carbon_data, List.lookup, strip_beef, beq_beef_pasta,
      fdiv, FVal.mul100, FVal.round2F, FVal.lt, round2, round_eq]

/-- Witness for C5, applied at the Beef Mince slot of spec example 2. -/
theorem unresolved_cost_emission_only_witness :
    slotCost emptyPr beefBurger.slot1 = 0 :=
  (unresolved_cost_emission_only load_carbon_data emptyPr beefBurger.slot1
    "Beef Mince" 150 rfl rfl rfl rfl).1

/-- C6: a slot with a missing ingredient name or a missing quantity
contributes nothing to emissions or cost and leaves the loop accumulators
unchanged, even when an explicit cost value is present. -/
theorem missing_field_slot_skipped (cr pr : String → Option ℚ) (s : Slot)
    (h : s.ing = none ∨ s.qty = none) :
    slotEmission cr s = 0 ∧ slotCost pr s = 0 ∧
    ∀ acc : ℚ × ℚ, estimateStep cr pr acc s = acc := by
  rcases s with ⟨i0, q0, c0⟩
  simp at h
  rcases h with h | h
  · subst h
    exact ⟨rfl, rfl, fun acc => rfl⟩
  · subst h
    refine ⟨?_, ?_, fun acc => ?_⟩ <;> cases i0 <;> rfl

/-- Witness for C6: an explicit cost with a missing quantity contributes
nothing to cost. -/
theorem missing_field_slot_skipped_witness :
    slotCost emptyPr { ing := some "Pasta", qty := none, costPerG := some 0.02 } = 0 :=
  (missing_field_slot_skipped load_carbon_data emptyPr
    { ing := some "Pasta", qty := none, costPerG := some 0.02 } (Or.inr rfl)).2.1

/-- C3: the derived metrics are computed from the already rounded total cost
and emissions: profit is the rounded difference of selling price and total
cost; for a nonzero selling price the margin is the rounded
`(price - cost) / price * 100`; for a nonzero profit the CO2e-per-profit is
the rounded `co2e / profit`; and on spec example 1 (Pasta Bowl) the pipeline
yields emissions 0.22, total cost 2.00, margin 80.0, profit 8.00,
CO2e-per-profit 0.03 and no flags. -/
theorem derived_metrics_formulas (cr pr : String → Option ℚ) (r : DishRecord) :
    (analyze cr pr r).profit = round2 (r.sellingPrice - (analyze cr pr r).totalCost) ∧
    (r.sellingPrice ≠ 0 →
      (analyze cr pr r).marginPct =
        FVal.fin (round2 ((r.sellingPrice - (analyze cr pr r).totalCost) /
          r.sellingPrice * 100))) ∧
    ((analyze cr pr r).profit ≠ 0 →
      (analyze cr pr r).co2ePerProfit =
        FVal.fin (round2 ((analyze cr pr r).co2e / (analyze cr pr r).profit))) ∧
    analyze load_carbon_data pastaPr pastaBowl =
      { co2e := 0.22, totalCost := 2, marginPct := FVal.fin 80, profit := 8,
        co2ePerProfit := FVal.fin 0.03, lowMargin := false, highCO2 := false } := by
  refine ⟨rfl, ?_, ?_, ?_⟩
  · intro h
    simp only [analyze]
    unfold fdiv
    rw [if_pos h]
    rfl
  · intro h
    simp only [analyze] at h ⊢
    unfold fdiv
    rw [if_pos h]
    rfl
  · norm_num +decide [analyze, estimate, DishRecord.slots, estimateStep, pastaBowl,
      emptySlot, pastaPr, load_carbon_data, List.lookup, strip_pasta, fdiv,
      FVal.mul100, FVal.round2F, FVal.lt, round2, round_eq]

/-- Witness for C3, discharging the two nonzero hypotheses at example 1. -/
theorem derived_metrics_formulas_witness :
    (analyze load_carbon_data pastaPr pastaBowl).marginPct =
      FVal.fin (round2 ((pastaBowl.sellingPrice -
        (analyze load_carbon_data pastaPr pastaBowl).totalCost) /
        pastaBowl.sellingPrice * 100)) ∧
    (analyze load_carbon_data pastaPr pastaBowl).co2ePerProfit =
      FVal.fin (round2 ((analyze load_carbon_data pastaPr pastaBowl).co2e /
        (analyze load_carbon_data pastaPr pastaBowl).profit)) := by
  refine ⟨(derived_metrics_formulas load_carbon_data pastaPr pastaBowl).2.1 ?_,
          (derived_metrics_formulas load_carbon_data pastaPr pastaBowl).2.2.1 ?_⟩
  · norm_num [pastaBowl]
  · norm_num +decide [analyze, estimate, DishRecord.slots, estimateStep, pastaBowl,
      emptySlot, pastaPr, load_carbon_data, List.lookup, strip_pasta, round2, round_eq]

/-- C4: the low-margin flag is set exactly when the margin column compares
less than 60 under the pandas comparison and the high-CO2 flag exactly when
the rounded emissions exceed 3; both comparisons are strict, so margin
exactly 60 or emissions exactly 3 leave the respective flag unset; and the
flags are independent, as four dishes realising all four flag combinations
show. -/
theorem flag_thresholds_strict (cr pr : String → Option ℚ) (r : DishRecord) :
    ((analyze cr pr r).lowMargin = true ↔
      FVal.lt (analyze cr pr r).marginPct 60 = true) ∧
    ((analyze cr pr r).highCO2 = true ↔ 3 < (analyze cr pr r).co2e) ∧
    ((analyze cr pr r).marginPct = FVal.fin 60 →
      (analyze cr pr r).lowMargin = false) ∧
    ((analyze cr pr r).co2e = 3 → (analyze cr pr r).highCO2 = false) ∧
    ((analyze load_carbon_data emptyPr dishBothFlags).lowMargin = true ∧
     (analyze load_carbon_data emptyPr dishBothFlags).highCO2 = true) ∧
    ((analyze load_carbon_data emptyPr dishLowOnly).lowMargin = true ∧
     (analyze load_carbon_data emptyPr dishLowOnly).highCO2 = false) ∧
    ((analyze load_carbon_data emptyPr dishHighOnly).lowMargin = false ∧
     (analyze load_carbon_data emptyPr dishHighOnly).highCO2 = true) ∧
    ((analyze load_carbon_data emptyPr dishNoFlags).lowMargin = false ∧
     (analyze load_carbon_data emptyPr dishNoFlags).highCO2 = false) := by
  refine ⟨Iff.rfl, by simp [analyze], ?_, ?_, ?_, ?_, ?_, ?_⟩
  · intro h
    show FVal.lt (analyze cr pr r).marginPct 60 = false
    rw [h]
    simp [FVal.lt]
  · intro h
    show decide (3 < (analyze cr pr r).co2e) = false
    rw [h]
    simp
  · norm_num +decide [analyze, estimate, DishRecord.slots, estimateStep, dishBothFlags,
      emptySlot, emptyPr, load_carbon_data, List.lookup, strip_beef, beq_beef_pasta,
      fdiv, FVal.mul100, FVal.round2F, FVal.lt, round2, round_eq]
  · norm_num +decide [analyze, estimate, DishRecord.slots, estimateStep, dishLowOnly,
      emptySlot, emptyPr, load_carbon_data, List.lookup, strip_pasta,
      fdiv, FVal.mul100, FVal.round2F, FVal.lt, round2, round_eq]
  · norm_num +decide [analyze, estimate, DishRecord.slots, estimateStep, dishHighOnly,
      emptySlot, emptyPr, load_carbon_data, List.lookup, strip_beef, beq_beef_pasta,
      fdiv, FVal.mul100, FVal.round2F, FVal.lt, round2, round_eq]
  · norm_num +decide [analyze, estimate, DishRecord.slots, estimateStep, dishNoFlags,
      emptySlot, emptyPr, load_carbon_data, List.lookup, strip_pasta,
      fdiv, FVal.mul100, FVal.round2F, FVal.lt, round2, round_eq]

/-- Witness for C4: a dish with margin exactly 60 carries no low-margin flag
and a dish with emissions exactly 3 carries no high-CO2 flag. -/
theorem flag_thresholds_strict_witness :
    (analyze load_carbon_data emptyPr dishMarginSixty).lowMargin = false ∧
    (analyze load_carbon_data emptyPr dishCO2Three).highCO2 = false := by
  refine ⟨(flag_thresholds_strict load_carbon_data emptyPr dishMarginSixty).2.2.1 ?_,
          (flag_thresholds_strict load_carbon_data emptyPr dishCO2Three).2.2.2.1 ?_⟩
  · norm_num +decide [analyze, estimate, DishRecord.slots, estimateStep, dishMarginSixty,
      emptySlot, emptyPr, load_carbon_data, List.lookup, strip_pasta, fdiv,
      FVal.mul100, FVal.round2F, round2, round_eq]
  · norm_num +decide [analyze, estimate, DishRecord.slots, estimateStep, dishCO2Three,
      emptySlot, emptyPr, load_carbon_data, List.lookup, strip_tomato_sauce,
      beq_sauce_pasta, beq_sauce_beef, round2, round_eq]

/-- C7: rounded profit plus rounded total cost equals the selling price up to
2-decimal rounding: the sum is exactly the selling price rounded to 2
decimals, hence within 1/200 of the selling price. -/
theorem profit_plus_cost_matches_price (cr pr : String → Option ℚ) (r : DishRecord) :
    (analyze cr pr r).profit + (analyze cr pr r).totalCost = round2 r.sellingPrice ∧
    |(analyze cr pr r).profit + (analyze cr pr r).totalCost - r.sellingPrice| ≤ 1 / 200 := by
  have hp : (analyze cr pr r).profit =
      round2 (r.sellingPrice - round2 ((r.slots.foldl (estimateStep cr pr) (0, 0)).2)) := rfl
  have htc : (analyze cr pr r).totalCost =
      round2 ((r.slots.foldl (estimateStep cr pr) (0, 0)).2) := rfl
  rw [hp, htc, round2_sub_round2]
  constructor
  · ring
  · have h := abs_round2_sub r.sellingPrice
    have e : round2 r.sellingPrice -
        round2 ((r.slots.foldl (estimateStep cr pr) (0, 0)).2) +
        round2 ((r.slots.foldl (estimateStep cr pr) (0, 0)).2) - r.sellingPrice =
        round2 r.sellingPrice - r.sellingPrice := by ring
    rw [e]
    exact h

/-- C8: increasing any single slot's quantity while holding every other
input fixed never decreases the rounded total cost or the rounded emissions,
provided all emission factors, reference prices and explicit slot costs are
non-negative; rounding to 2 decimals preserves the monotonicity. -/
theorem estimate_monotone_in_quantity (cr pr : String → Option ℚ) (r : DishRecord)
    (i : Fin 3) (q q' : ℚ) (hq : q ≤ q')
    (hcr : ∀ n v, cr n = some v → 0 ≤ v)
    (hpr : ∀ n v, pr n = some v → 0 ≤ v)
    (hexp : ∀ s ∈ r.slots, ∀ c, s.costPerG = some c → 0 ≤ c) :
    (estimate cr pr (r.setQty i q)).1 ≤ (estimate cr pr (r.setQty i q')).1 ∧
    (estimate cr pr (r.setQty i q)).2 ≤ (estimate cr pr (r.setQty i q')).2 := by
  have h1 := hexp r.slot1 (by simp [DishRecord.slots])
  have h2 := hexp r.slot2 (by simp [DishRecord.slots])
  have h3 := hexp r.slot3 (by simp [DishRecord.slots])
  rcases i with ⟨iv, hi⟩
  interval_cases iv
  · simp only [DishRecord.setQty, estimate_eq]
    constructor
    · apply round2_mono
      have hm := slotEmission_qty_mono cr hcr r.slot1 hq
      linarith
    · apply round2_mono
      have hm := slotCost_qty_mono pr hpr r.slot1 h1 hq
      linarith
  · simp only [DishRecord.setQty, estimate_eq]
    constructor
    · apply round2_mono
      have hm := slotEmission_qty_mono cr hcr r.slot2 hq
      linarith
    · apply round2_mono
      have hm := slotCost_qty_mono pr hpr r.slot2 h2 hq
      linarith
  · simp only [DishRecord.setQty, estimate_eq]
    constructor
    · apply round2_mono
      have hm := slotEmission_qty_mono cr hcr r.slot3 hq
      linarith
    · apply round2_mono
      have hm := slotCost_qty_mono pr hpr r.slot3 h3 hq
      linarith

/-- Witness for C8: monotonicity at the demonstration dish, first slot,
quantities 100 and 200, under constant non-negative reference tables. -/
theorem estimate_monotone_in_quantity_witness :
    (estimate (fun _ => some 2) (fun _ => some 0.01) (monoDish.setQty 0 100)).1 ≤
      (estimate (fun _ => some 2) (fun _ => some 0.01) (monoDish.setQty 0 200)).1 ∧
    (estimate (fun _ => some 2) (fun _ => some 0.01) (monoDish.setQty 0 100)).2 ≤
      (estimate (fun _ => some 2) (fun _ => some 0.01) (monoDish.setQty 0 200)).2 := by
  refine estimate_monotone_in_quantity (fun _ => some 2) (fun _ => some 0.01) monoDish
    0 100 200 (by norm_num) ?_ ?_ ?_
  · intro n v h
    simp only [Option.some.injEq] at h
    rw [h.symm]
    norm_num
  · intro n v h
    simp only [Option.some.injEq] at h
    rw [h.symm]
    norm_num
  · intro s hs c hc
    simp [DishRecord.slots, monoDish, emptySlot] at hs
    rcases hs with h | h <;> subst h <;> simp at hc

/-- C9: the core is a total function: every dish record yields a result, and
the two degenerate-arithmetic cases produce non-finite values instead of an
error: a zero selling price gives a non-finite margin and a zero profit a
non-finite CO2e-per-profit. -/
theorem core_total_nonfatal (cr pr : String → Option ℚ) (r : DishRecord) :
    (∃ res : DishResult, analyze cr pr r = res) ∧
    (r.sellingPrice = 0 → (analyze cr pr r).marginPct.isFinite = false) ∧
    ((analyze cr pr r).profit = 0 →
      (analyze cr pr r).co2ePerProfit.isFinite = false) := by
  refine ⟨⟨analyze cr pr r, rfl⟩, ?_, ?_⟩
  · intro h
    show (((fdiv (r.sellingPrice - (estimate cr pr r).2)
        r.sellingPrice).mul100).round2F).isFinite = false
    rw [h]
    unfold fdiv
    rw [if_neg (by simp)]
    split_ifs <;> rfl
  · intro h
    have h' : round2 (r.sellingPrice - (estimate cr pr r).2) = 0 := h
    show ((fdiv (estimate cr pr r).1
        (round2 (r.sellingPrice - (estimate cr pr r).2))).round2F).isFinite = false
    rw [h']
    unfold fdiv
    rw [if_neg (by simp)]
    split_ifs <;> rfl

/-- Witness for C9: the zero-priced dish yields a non-finite margin. -/
theorem core_total_nonfatal_witness :
    (analyze load_carbon_data emptyPr zeroPriceDish).marginPct.isFinite = false :=
  (core_total_nonfatal load_carbon_data emptyPr zeroPriceDish).2.1 rfl

/-- C10: for a dish with selling price 0 the low-margin flag depends on the
cost: a positive total cost gives margin negative infinity and sets the flag
(negative infinity compares below 60); a zero total cost gives margin NaN
and leaves the flag unset (NaN compares false against 60). -/
theorem zero_price_flag_disparity (cr pr : String → Option ℚ) (r : DishRecord)
    (hsp : r.sellingPrice = 0) :
    (0 < (analyze cr pr r).totalCost →
      (analyze cr pr r).marginPct = FVal.negInf ∧
      (analyze cr pr r).lowMargin = true) ∧
    ((analyze cr pr r).totalCost = 0 →
      (analyze cr pr r).marginPct = FVal.nan ∧
      (analyze cr pr r).lowMargin = false) := by
  constructor
  · intro htc
    have htc' : 0 < (estimate cr pr r).2 := htc
    constructor
    · show (((fdiv (r.sellingPrice - (estimate cr pr r).2)
          r.sellingPrice).mul100).round2F) = FVal.negInf
      rw [hsp]
      unfold fdiv
      rw [if_neg (by simp), if_neg (by simp; linarith), if_pos (by linarith)]
      rfl
    · show ((((fdiv (r.sellingPrice - (estimate cr pr r).2)
          r.sellingPrice).mul100).round2F)).lt 60 = true
      rw [hsp]
      unfold fdiv
      rw [if_neg (by simp), if_neg (by simp; linarith), if_pos (by linarith)]
      rfl
  · intro htc
    have htc' : (estimate cr pr r).2 = 0 := htc
    constructor
    · show (((fdiv (r.sellingPrice - (estimate cr pr r).2)
          r.sellingPrice).mul100).round2F) = FVal.nan
      rw [hsp, htc']
      unfold fdiv
      rw [if_neg (by simp), if_neg (by simp), if_neg (by simp)]
      rfl
    · show ((((fdiv (r.sellingPrice - (estimate cr pr r).2)
          r.sellingPrice).mul100).round2F)).lt 60 = false
      rw [hsp, htc']
      unfold fdiv
      rw [if_neg (by simp), if_neg (by simp), if_neg (by simp)]
      rfl

/-- Witness for C10: selling price 0 with total cost 2 gives margin negative
infinity and the low-margin flag. -/
theorem zero_price_flag_disparity_witness :
    (analyze load_carbon_data emptyPr zeroPriceDish).marginPct = FVal.negInf ∧
    (analyze load_carbon_data emptyPr zeroPriceDish).lowMargin = true :=
  (zero_price_flag_disparity load_carbon_data emptyPr zeroPriceDish rfl).1 (by
    norm_num +decide [analyze, estimate, DishRecord.slots, estimateStep, zeroPriceDish,
      emptySlot, emptyPr, load_carbon_data, List.lookup, strip_pasta, round2, round_eq])

end Clove
